import Mathlib

/-
Verification development for the Prisma Cloud API client core of this
repository (src/prismacloud_api/cspm.py, with instance attributes declared in
src/prismacloud_api/pc_lib_api.py).

Shallow embedding notes:
- Wall-clock time is a natural number of seconds, frozen for the duration of a
  call (`ClientState.now`); `time.time()` reads this value.
- The `threading.Lock` stored in `self.lock` is non-reentrant.  Sequential
  execution models `with self.lock:` as: if the flag `lockHeld` is already
  true, the acquire blocks forever (`Fail.deadlock`); otherwise the flag is
  true for the body and restored afterwards.
- HTTP bodies are classified by what `json.loads` would do on them:
  `Content.empty` (falsy body), `Content.parses j raw` (body `raw` decoding to
  the JSON value `j`), `Content.unparsable raw` (ValueError).
- Network traffic is an oracle `Nat -> Response` giving, per request index,
  the response delivered by the transport after the retry wrapper; the retry
  wrapper itself (`_perform_request_with_retries`) is embedded separately over
  per-attempt outcomes.
- Uncaught Python exceptions and `SystemExit` from `error_and_exit` are
  explicit `Fail` outcomes; loops are fuel-bounded and a run that exhausts its
  fuel yields `Fail.outOfFuel` for every fuel amount exactly when the Python
  loop does not terminate.
- The instance attribute `token_limit` is read by `cspm.py` (lines 45 and 72)
  but assigned nowhere under src/; it is carried as a state field.  The spec
  gives its value: a fixed lifetime, e.g. 590 seconds.
-/

namespace PCApi

/-- JSON values, as produced by a successful `json.loads`. -/
inductive Json : Type
  | null
  | bool (b : Bool)
  | num (n : Int)
  | str (s : String)
  | arr (elems : List Json)
  | obj (fields : List (String × Json))

/-- Python truthiness of a JSON value (used by `if result[..]`-style tests). -/
def jTruthy : Json → Bool
  | .null => false
  | .bool b => b
  | .num n => decide (n ≠ 0)
  | .str s => !s.isEmpty
  | .arr elems => !elems.isEmpty
  | .obj fields => !fields.isEmpty

/-- Dictionary lookup, first binding wins (Python dict key access). -/
def jsonGet : List (String × Json) → String → Option Json
  | [], _ => none
  | (k, v) :: rest, key => if k = key then some v else jsonGet rest key

/-- The value `api_response_data.get('token')` stored by login and extend;
string-valued tokens are kept, anything else behaves as an absent token. -/
def tokenFromJson : Json → Option String
  | .obj fields =>
      match jsonGet fields "token" with
      | some (.str s) => some s
      | _ => none
  | _ => none

/-- Classification of a response body by emptiness and JSON decodability. -/
inductive Content : Type
  | empty
  | parses (j : Json) (raw : String)
  | unparsable (raw : String)

/-- The raw bytes/text of a body (identity on our string model). -/
def Content.raw : Content → String
  | .empty => ""
  | .parses _ raw => raw
  | .unparsable raw => raw

/-- What `_perform_request_with_retries` hands back for one request. -/
structure Response : Type where
  ok : Bool
  status_code : Nat
  text : String
  content_type : Option String
  content : Content

/-- Header values may be Python `None` (the token before login). -/
abbrev Headers := List (String × Option String)

/-- Shared client state: token store fields, the non-reentrant lock, and the
frozen wall clock. -/
structure ClientState : Type where
  token : Option String
  token_expiry : Option Nat
  token_limit : Nat
  now : Nat
  lockHeld : Bool

/-- One outbound HTTP request as recorded for the trace. -/
structure Request : Type where
  action : String
  url : String
  headers : Headers
  body : Option Json

/-- Abnormal outcomes: self-deadlock on the lock, `SystemExit` raised by
`error_and_exit`, uncaught KeyError / TypeError / ValueError, and fuel
exhaustion standing for a non-terminating loop. -/
inductive Fail : Type
  | deadlock
  | exit (code : Nat) (msg : String)
  | keyError (k : String)
  | typeError
  | valueError
  | outOfFuel

/-- The value `execute` returns on the normal path. -/
inductive ExecResult : Type
  | none
  | bytes (s : String)
  | text (s : String)
  | json (j : Json)
  | items (elems : List Json)

/-- Result of running an embedded method: outcome, final state, next oracle
index, and the chronological list of requests issued. -/
structure M (α : Type) : Type where
  result : Except Fail α
  st : ClientState
  idx : Nat
  trace : List Request

/-- Python truthiness of `self.token` (cspm.py line 87). -/
def tokenFalsy (st : ClientState) : Bool :=
  match st.token with
  | none => true
  | some s => s.isEmpty

/-- The comparison under the lock in `is_token_expired` (cspm.py line 159):
`time.time() >= self.token_expiry if self.token_expiry else True`. -/
def isExpiredRaw (st : ClientState) : Bool :=
  match st.token_expiry with
  | none => true
  | some e => if e = 0 then true else decide (e ≤ st.now)

/-- cspm.py lines 156-159: acquires `self.lock`, so it deadlocks when the
caller already holds the lock. -/
def is_token_expired (st : ClientState) : Except Fail Bool :=
  if st.lockHeld then .error .deadlock else .ok (isExpiredRaw st)

def loginUrl (api : String) : String := "https://" ++ api ++ "/login"

def extendUrl (api : String) : String := "https://" ++ api ++ "/auth_token/extend"

def dataUrl (api endpoint : String) : String := "https://" ++ api ++ "/" ++ endpoint

def loginHeaders (ua : String) : Headers :=
  [("Content-Type", some "application/json"), ("User-Agent", some ua)]

def extendHeaders (ua : String) (token : Option String) : Headers :=
  [("Content-Type", some "application/json"), ("User-Agent", some ua),
   ("x-redlock-auth", token)]

/-- The default data-request headers built at cspm.py lines 100-101. -/
def defaultHeaders (ua : String) (token : Option String) : Headers :=
  [("Content-Type", some "application/json"), ("User-Agent", some ua),
   ("x-redlock-auth", token)]

/-- The request issued by `login` (cspm.py lines 31-39). -/
def loginRequest (api ua identity secret : String) : Request :=
  { action := "POST", url := loginUrl api, headers := loginHeaders ua,
    body := some (.obj [("username", .str identity), ("password", .str secret)]) }

/-- cspm.py lines 22-51.  POSTs credentials; on a successful response it
re-acquires `self.lock` (line 42) and commits `token` and
`token_expiry = time.time() + self.token_limit`; on failure it calls
`error_and_exit` with the status code and response text. -/
def login (api ua identity secret : String) (oracle : Nat → Response)
    (st : ClientState) (idx : Nat) : M Unit :=
  let req := loginRequest api ua identity secret
  let r := oracle idx
  if r.ok then
    if st.lockHeld then ⟨.error .deadlock, st, idx + 1, [req]⟩
    else
      match r.content with
      | .parses j _ =>
          ⟨.ok (), { st with token := tokenFromJson j,
                             token_expiry := some (st.now + st.token_limit) },
            idx + 1, [req]⟩
      | _ => ⟨.error .valueError, st, idx + 1, [req]⟩
  else
    ⟨.error (.exit r.status_code
        ("API (" ++ loginUrl api ++ ") responded with an error\n" ++ r.text)),
      st, idx + 1, [req]⟩

/-- cspm.py lines 53-78.  GETs the extend endpoint with the current token in
`x-redlock-auth` (read without the lock, line 62); on success re-acquires
`self.lock` (line 69) and commits the new token and expiry. -/
def extend_login (api ua : String) (oracle : Nat → Response)
    (st : ClientState) (idx : Nat) : M Unit :=
  let req : Request := { action := "GET", url := extendUrl api,
                         headers := extendHeaders ua st.token, body := none }
  let r := oracle idx
  if r.ok then
    if st.lockHeld then ⟨.error .deadlock, st, idx + 1, [req]⟩
    else
      match r.content with
      | .parses j _ =>
          ⟨.ok (), { st with token := tokenFromJson j,
                             token_expiry := some (st.now + st.token_limit) },
            idx + 1, [req]⟩
      | _ => ⟨.error .valueError, st, idx + 1, [req]⟩
  else
    ⟨.error (.exit r.status_code
        ("API (" ++ extendUrl api ++ ") responded with an error\n" ++ r.text)),
      st, idx + 1, [req]⟩

/-- cspm.py lines 94-95, the start of each page-loop iteration:
`if self.is_token_expired(): self.extend_login()`. -/
def loopTokenCheck (api ua : String) (oracle : Nat → Response)
    (st : ClientState) (idx : Nat) : M Unit :=
  match is_token_expired st with
  | .error f => ⟨.error f, st, idx, []⟩
  | .ok true => extend_login api ua oracle st idx
  | .ok false => ⟨.ok (), st, idx, []⟩

/-- cspm.py lines 99-101: `if not request_headers: request_headers = {...}`.
The rebuilt dictionary captures the token current at build time. -/
def buildHeaders (ua : String) (token : Option String)
    (request_headers : Option Headers) : Headers :=
  match request_headers with
  | some h => if h.isEmpty then defaultHeaders ua token else h
  | none => defaultHeaders ua token

/-- cspm.py lines 93-136, the `while more:` loop of `execute`, with the
loop-carried Python locals (`body_params`, `request_headers`, `results`)
explicit.  One unit of fuel is one loop iteration; the non-ok branch
(lines 133-134) only logs and loops again, changing nothing but the
request count. -/
def executeLoop (api ua action endpoint : String) (force paginated : Bool)
    (oracle : Nat → Response) :
    Nat → ClientState → Nat → Option Json → Option Headers → List Json →
    M ExecResult
  | 0, st, idx, _, _, _ => ⟨.error .outOfFuel, st, idx, []⟩
  | fuel + 1, st, idx, body_params, request_headers, results =>
    match loopTokenCheck api ua oracle st idx with
    | ⟨.error f, st1, idx1, tr1⟩ => ⟨.error f, st1, idx1, tr1⟩
    | ⟨.ok _, st1, idx1, tr1⟩ =>
      let hs := buildHeaders ua st1.token request_headers
      let req : Request := { action := action, url := dataUrl api endpoint,
                             headers := hs, body := body_params }
      let r := oracle idx1
      let idx2 := idx1 + 1
      if r.ok then
        match r.content with
        | .empty => ⟨.ok .none, st1, idx2, tr1 ++ [req]⟩
        | .unparsable raw =>
          if r.content_type = some "application/x-gzip" then
            ⟨.ok (.bytes raw), st1, idx2, tr1 ++ [req]⟩
          else if r.content_type = some "text/csv" then
            ⟨.ok (.text raw), st1, idx2, tr1 ++ [req]⟩
          else
            if force then ⟨.ok (.items results), st1, idx2, tr1 ++ [req]⟩
            else ⟨.error (.exit r.status_code "Error parsing response"),
                   st1, idx2, tr1 ++ [req]⟩
        | .parses j raw =>
          if r.content_type = some "application/x-gzip" then
            ⟨.ok (.bytes raw), st1, idx2, tr1 ++ [req]⟩
          else if r.content_type = some "text/csv" then
            ⟨.ok (.text raw), st1, idx2, tr1 ++ [req]⟩
          else
                if paginated then
                  match j with
                  | .obj fields =>
                    match jsonGet fields "items" with
                    | some (.arr xs) =>
                        let results2 := results ++ xs
                        match jsonGet fields "nextPageToken" with
                        | some v =>
                            if jTruthy v then
                              let k := executeLoop api ua action endpoint force
                                paginated oracle fuel st1 idx2
                                (some (.obj [("pageToken", v)])) (some hs) results2
                              ⟨k.result, k.st, k.idx, tr1 ++ req :: k.trace⟩
                            else ⟨.ok (.items results2), st1, idx2, tr1 ++ [req]⟩
                        | none => ⟨.ok (.items results2), st1, idx2, tr1 ++ [req]⟩
                    | some _ => ⟨.error .typeError, st1, idx2, tr1 ++ [req]⟩
                    | none => ⟨.error (.keyError "items"), st1, idx2, tr1 ++ [req]⟩
                  | _ => ⟨.error .typeError, st1, idx2, tr1 ++ [req]⟩
                else ⟨.ok (.json j), st1, idx2, tr1 ++ [req]⟩
      else
        let k := executeLoop api ua action endpoint force paginated oracle
          fuel st1 idx2 body_params (some hs) results
        ⟨k.result, k.st, k.idx, tr1 ++ req :: k.trace⟩

/-- cspm.py lines 80-136.  Acquires `self.lock` (line 86) around the
check-and-login at lines 87-88 — note that both `is_token_expired` and the
success path of `login` re-acquire that same non-reentrant lock — then runs
the page loop with `results = []`. -/
def execute (api ua identity secret action endpoint : String)
    (body_params : Option Json) (request_headers : Option Headers)
    (force paginated : Bool) (oracle : Nat → Response) (fuel : Nat)
    (st : ClientState) : M ExecResult :=
  if st.lockHeld then ⟨.error .deadlock, st, 0, []⟩
  else
    let stL : ClientState := { st with lockHeld := true }
    let phase : M Unit :=
      if tokenFalsy stL then login api ua identity secret oracle stL 0
      else
        match is_token_expired stL with
        | .error f => ⟨.error f, stL, 0, []⟩
        | .ok true => login api ua identity secret oracle stL 0
        | .ok false => ⟨.ok (), stL, 0, []⟩
    match phase with
    | ⟨.error f, st1, idx1, tr1⟩ => ⟨.error f, st1, idx1, tr1⟩
    | ⟨.ok _, st1, idx1, tr1⟩ =>
      let st2 : ClientState := { st1 with lockHeld := false }
      let k := executeLoop api ua action endpoint force paginated oracle fuel
        st2 idx1 body_params request_headers []
      ⟨k.result, k.st, k.idx, tr1 ++ k.trace⟩

/-- One transport attempt inside `_perform_request_with_retries`: either a
response object or a raised `requests.exceptions.RequestException`. -/
inductive AttemptOutcome : Type
  | resp (r : Response)
  | exn (msg : String)

/-- An attempt is successful when it raises nothing and `response.ok` holds. -/
def attemptOk : AttemptOutcome → Bool
  | .resp r => r.ok
  | .exn _ => false

/-- What the retry wrapper ends with: a returned response, or the uncaught
exception of the final attempt. -/
inductive RetryOutcome : Type
  | returned (r : Response)
  | raised (msg : String)

/-- A complete run of the retry wrapper: its outcome, how many transport
attempts were made, and the sleeps performed (in order). -/
structure RetryRun : Type where
  outcome : RetryOutcome
  attemptsMade : Nat
  sleeps : List Nat

/-- The backoff loop of cspm.py lines 142-151 followed by the final attempt of
line 154.  `off` is the index of the next transport attempt; the run counts
the attempts made from there on and records the sleeps performed, in order. -/
def retryLoop (attempts : Nat → AttemptOutcome) : Nat → List Nat → RetryRun
  | off, [] =>
      match attempts off with
      | .resp r => ⟨.returned r, 1, []⟩
      | .exn msg => ⟨.raised msg, 1, []⟩
  | off, w :: ws =>
      match attempts off with
      | .resp r =>
          if r.ok then ⟨.returned r, 1, []⟩
          else
            let k := retryLoop attempts (off + 1) ws
            ⟨k.outcome, k.attemptsMade + 1, w :: k.sleeps⟩
      | .exn _ =>
          let k := retryLoop attempts (off + 1) ws
          ⟨k.outcome, k.attemptsMade + 1, w :: k.sleeps⟩

/-- cspm.py lines 138-154: one transport attempt per entry of
`self.retry_waits`, sleeping that entry after an unsuccessful attempt, then a
final unconditional attempt whose result (or exception) is yielded.  An
exception raised by the final attempt propagates uncaught. -/
def perform_request_with_retries (retry_waits : List Nat)
    (attempts : Nat → AttemptOutcome) : RetryRun :=
  retryLoop attempts 0 retry_waits

/-- What an attempt outcome turns into when it is the final attempt: the
response is returned as-is, an exception propagates. -/
def attemptYield : AttemptOutcome → RetryOutcome
  | .resp r => .returned r
  | .exn msg => .raised msg

/- ------------------------------------------------------------------ -/
/- Concrete fixtures used by witnesses and counterexamples.            -/
/- ------------------------------------------------------------------ -/

/-- A transport whose every answer is HTTP 503, including the final attempt. -/
def oracle503 : Nat → Response :=
  fun _ => { ok := false, status_code := 503, text := "Service Unavailable",
             content_type := none, content := .empty }

/-- A client holding token T1, valid until instant 1000, at frozen time 100. -/
def stValid : ClientState :=
  { token := some "T1", token_expiry := some 1000, token_limit := 590,
    now := 100, lockHeld := false }

/-- A client holding token TT, valid until instant 100000, at frozen time 3. -/
def stValid2 : ClientState :=
  { token := some "TT", token_expiry := some 100000, token_limit := 590,
    now := 3, lockHeld := false }

/-- A client holding token T1 whose expiry instant 10 lies before the frozen
time 600: the token exists but has expired. -/
def stExpired : ClientState :=
  { token := some "T1", token_expiry := some 10, token_limit := 590,
    now := 600, lockHeld := false }

/-- A freshly constructed client: no token, no recorded expiry. -/
def stFresh : ClientState :=
  { token := none, token_expiry := none, token_limit := 590,
    now := 1000, lockHeld := false }

/-- The JSON object of one page: an `items` array and, when given, a
`nextPageToken` field. -/
def pageJson (p : List Json × Option Json) : Json :=
  .obj (("items", Json.arr p.1) ::
    (match p.2 with
     | some v => [("nextPageToken", v)]
     | none => []))

/-- A successful JSON response carrying one page. -/
def pageResponse (p : List Json × Option Json) : Response :=
  { ok := true, status_code := 200, text := "",
    content_type := some "application/json", content := .parses (pageJson p) "page" }

/-- The spec scenario transport: page 1 is `[1, 2]` with continuation token
`A`, page 2 is `[3]` with an empty continuation token. -/
def oracleTwoPages : Nat → Response :=
  fun i =>
    if i = 0 then pageResponse ([Json.num 1, Json.num 2], some (Json.str "A"))
    else pageResponse ([Json.num 3], some (Json.str ""))

/-- A successful response with an empty body. -/
def emptyResponse : Response :=
  { ok := true, status_code := 200, text := "", content_type := some "application/json",
    content := .empty }

/-- A successful gzip response carrying the bytes `s`. -/
def gzipResponse (s : String) : Response :=
  { ok := true, status_code := 200, text := "",
    content_type := some "application/x-gzip", content := .unparsable s }

/-- A successful CSV response carrying the text `s`. -/
def csvResponse (s : String) : Response :=
  { ok := true, status_code := 200, text := "", content_type := some "text/csv",
    content := .unparsable s }

/-- A successful JSON-object response without an `items` key. -/
def noItemsResponse : Response :=
  { ok := true, status_code := 200, text := "",
    content_type := some "application/json",
    content := .parses (.obj [("status", .str "ok")]) "noitems" }

/-- A transport answering the no-items object on every request. -/
def oracleNoItems : Nat → Response := fun _ => noItemsResponse

/-- A transport answering a CSV export on every request. -/
def oracleCsv : Nat → Response := fun _ => csvResponse "id,name\n1,a"

/-- A transport giving a first page with continuation token `A` and then an
empty-bodied response for the continuation request. -/
def oraclePageThenEmpty : Nat → Response :=
  fun i =>
    if i = 0 then pageResponse ([Json.num 1, Json.num 2], some (Json.str "A"))
    else emptyResponse

/-- A transport whose every attempt raises a connection exception. -/
def attemptsFail : Nat → AttemptOutcome := fun _ => .exn "connection refused"

/-- A successful login/extend response carrying token T9. -/
def tokenResponse : Response :=
  { ok := true, status_code := 200, text := "",
    content_type := some "application/json",
    content := .parses (.obj [("token", Json.str "T9")]) "tok" }

/-- A transport answering the T9 token response on every request. -/
def oracleToken : Nat → Response := fun _ => tokenResponse

/-- The trace the page loop is expected to produce on a page sequence: the
first request carries the caller body, every continuation request carries
`pageToken` set to the previous page's continuation token, and the loop stops
after a page whose continuation token is absent or falsy. -/
def pagesTrace (action url : String) (hs : Headers) :
    List (List Json × Option Json) → Option Json → List Request
  | [], _ => []
  | p :: rest, body =>
      { action := action, url := url, headers := hs, body := body } ::
        (match p.2 with
         | some v =>
             if jTruthy v then
               pagesTrace action url hs rest (some (.obj [("pageToken", v)]))
             else []
         | none => [])

/-- The data request issued by one page-loop iteration. -/
def pageRequest (api endpoint action : String) (hs : Headers)
    (body : Option Json) : Request :=
  { action := action, url := dataUrl api endpoint, headers := hs, body := body }

/- ------------------------------------------------------------------ -/
/- Helper lemmas about single steps of the embedded functions.         -/
/- ------------------------------------------------------------------ -/

theorem loopTokenCheck_notExpired (api ua : String) (oracle : Nat → Response)
    (st : ClientState) (idx : Nat)
    (hlock : st.lockHeld = false) (hexp : isExpiredRaw st = false) :
    loopTokenCheck api ua oracle st idx = ⟨.ok (), st, idx, []⟩ := by
  simp [loopTokenCheck, is_token_expired, hlock, hexp]

theorem executeLoop_notOk_step (api ua action endpoint : String)
    (force paginated : Bool) (oracle : Nat → Response) (st : ClientState)
    (idx fuel : Nat) (body : Option Json) (rh : Option Headers)
    (results : List Json)
    (hlock : st.lockHeld = false) (hexp : isExpiredRaw st = false)
    (hr : (oracle idx).ok = false) :
    executeLoop api ua action endpoint force paginated oracle (fuel + 1)
        st idx body rh results =
      { result := (executeLoop api ua action endpoint force paginated oracle
          fuel st (idx + 1) body (some (buildHeaders ua st.token rh)) results).result,
        st := (executeLoop api ua action endpoint force paginated oracle
          fuel st (idx + 1) body (some (buildHeaders ua st.token rh)) results).st,
        idx := (executeLoop api ua action endpoint force paginated oracle
          fuel st (idx + 1) body (some (buildHeaders ua st.token rh)) results).idx,
        trace := pageRequest api endpoint action (buildHeaders ua st.token rh) body ::
          (executeLoop api ua action endpoint force paginated oracle
            fuel st (idx + 1) body (some (buildHeaders ua st.token rh)) results).trace } := by
  simp [executeLoop, loopTokenCheck_notExpired api ua oracle st idx hlock hexp,
    hr, pageRequest]

theorem executeLoop_empty_step (api ua action endpoint : String)
    (force paginated : Bool) (oracle : Nat → Response) (st : ClientState)
    (idx fuel : Nat) (body : Option Json) (rh : Option Headers)
    (results : List Json)
    (hlock : st.lockHeld = false) (hexp : isExpiredRaw st = false)
    (hok : (oracle idx).ok = true) (hc : (oracle idx).content = .empty) :
    executeLoop api ua action endpoint force paginated oracle (fuel + 1)
        st idx body rh results =
      ⟨.ok .none, st, idx + 1,
        [pageRequest api endpoint action (buildHeaders ua st.token rh) body]⟩ := by
  simp [executeLoop, loopTokenCheck_notExpired api ua oracle st idx hlock hexp,
    hok, hc, pageRequest]

theorem executeLoop_gzip_step (api ua action endpoint : String)
    (force paginated : Bool) (oracle : Nat → Response) (st : ClientState)
    (idx fuel : Nat) (body : Option Json) (rh : Option Headers)
    (results : List Json) (raw : String)
    (hlock : st.lockHeld = false) (hexp : isExpiredRaw st = false)
    (hok : (oracle idx).ok = true)
    (hct : (oracle idx).content_type = some "application/x-gzip")
    (hc : (oracle idx).content = .unparsable raw ∨
          ∃ j, (oracle idx).content = .parses j raw) :
    executeLoop api ua action endpoint force paginated oracle (fuel + 1)
        st idx body rh results =
      ⟨.ok (.bytes raw), st, idx + 1,
        [pageRequest api endpoint action (buildHeaders ua st.token rh) body]⟩ := by
  rcases hc with hc | ⟨j, hc⟩ <;>
    simp [executeLoop, loopTokenCheck_notExpired api ua oracle st idx hlock hexp,
      hok, hc, hct, pageRequest]

theorem executeLoop_csv_step (api ua action endpoint : String)
    (force paginated : Bool) (oracle : Nat → Response) (st : ClientState)
    (idx fuel : Nat) (body : Option Json) (rh : Option Headers)
    (results : List Json) (raw : String)
    (hlock : st.lockHeld = false) (hexp : isExpiredRaw st = false)
    (hok : (oracle idx).ok = true)
    (hct : (oracle idx).content_type = some "text/csv")
    (hc : (oracle idx).content = .unparsable raw ∨
          ∃ j, (oracle idx).content = .parses j raw) :
    executeLoop api ua action endpoint force paginated oracle (fuel + 1)
        st idx body rh results =
      ⟨.ok (.text raw), st, idx + 1,
        [pageRequest api endpoint action (buildHeaders ua st.token rh) body]⟩ := by
  rcases hc with hc | ⟨j, hc⟩ <;>
    simp [executeLoop, loopTokenCheck_notExpired api ua oracle st idx hlock hexp,
      hok, hc, hct, pageRequest]

theorem executeLoop_unparsable_step (api ua action endpoint : String)
    (force paginated : Bool) (oracle : Nat → Response) (st : ClientState)
    (idx fuel : Nat) (body : Option Json) (rh : Option Headers)
    (results : List Json) (raw : String)
    (hlock : st.lockHeld = false) (hexp : isExpiredRaw st = false)
    (hok : (oracle idx).ok = true)
    (hct1 : (oracle idx).content_type ≠ some "application/x-gzip")
    (hct2 : (oracle idx).content_type ≠ some "text/csv")
    (hc : (oracle idx).content = .unparsable raw) :
    executeLoop api ua action endpoint force paginated oracle (fuel + 1)
        st idx body rh results =
      (if force then
        ⟨.ok (.items results), st, idx + 1,
          [pageRequest api endpoint action (buildHeaders ua st.token rh) body]⟩
       else
        ⟨.error (.exit (oracle idx).status_code "Error parsing response"), st, idx + 1,
          [pageRequest api endpoint action (buildHeaders ua st.token rh) body]⟩) := by
  simp [executeLoop, loopTokenCheck_notExpired api ua oracle st idx hlock hexp,
    hok, hc, hct1, hct2, pageRequest]

theorem executeLoop_page_none_step (api ua action endpoint : String)
    (force : Bool) (oracle : Nat → Response) (st : ClientState)
    (idx fuel : Nat) (body : Option Json) (rh : Option Headers)
    (results xs : List Json)
    (hlock : st.lockHeld = false) (hexp : isExpiredRaw st = false)
    (hr : oracle idx = pageResponse (xs, none)) :
    executeLoop api ua action endpoint force true oracle (fuel + 1)
        st idx body rh results =
      ⟨.ok (.items (results ++ xs)), st, idx + 1,
        [pageRequest api endpoint action (buildHeaders ua st.token rh) body]⟩ := by
  simp [executeLoop, loopTokenCheck_notExpired api ua oracle st idx hlock hexp,
    hr, pageResponse, pageJson, jsonGet, pageRequest]

theorem executeLoop_page_falsy_step (api ua action endpoint : String)
    (force : Bool) (oracle : Nat → Response) (st : ClientState)
    (idx fuel : Nat) (body : Option Json) (rh : Option Headers)
    (results xs : List Json) (v : Json)
    (hlock : st.lockHeld = false) (hexp : isExpiredRaw st = false)
    (hr : oracle idx = pageResponse (xs, some v)) (hfv : jTruthy v = false) :
    executeLoop api ua action endpoint force true oracle (fuel + 1)
        st idx body rh results =
      ⟨.ok (.items (results ++ xs)), st, idx + 1,
        [pageRequest api endpoint action (buildHeaders ua st.token rh) body]⟩ := by
  simp [executeLoop, loopTokenCheck_notExpired api ua oracle st idx hlock hexp,
    hr, pageResponse, pageJson, jsonGet, pageRequest, hfv]

theorem executeLoop_page_next_step (api ua action endpoint : String)
    (force : Bool) (oracle : Nat → Response) (st : ClientState)
    (idx fuel : Nat) (body : Option Json) (rh : Option Headers)
    (results xs : List Json) (v : Json)
    (hlock : st.lockHeld = false) (hexp : isExpiredRaw st = false)
    (hr : oracle idx = pageResponse (xs, some v)) (htv : jTruthy v = true) :
    executeLoop api ua action endpoint force true oracle (fuel + 1)
        st idx body rh results =
      { result := (executeLoop api ua action endpoint force true oracle
          fuel st (idx + 1) (some (.obj [("pageToken", v)]))
          (some (buildHeaders ua st.token rh)) (results ++ xs)).result,
        st := (executeLoop api ua action endpoint force true oracle
          fuel st (idx + 1) (some (.obj [("pageToken", v)]))
          (some (buildHeaders ua st.token rh)) (results ++ xs)).st,
        idx := (executeLoop api ua action endpoint force true oracle
          fuel st (idx + 1) (some (.obj [("pageToken", v)]))
          (some (buildHeaders ua st.token rh)) (results ++ xs)).idx,
        trace := pageRequest api endpoint action (buildHeaders ua st.token rh)
            body ::
          (executeLoop api ua action endpoint force true oracle
            fuel st (idx + 1) (some (.obj [("pageToken", v)]))
            (some (buildHeaders ua st.token rh)) (results ++ xs)).trace } := by
  simp [executeLoop, loopTokenCheck_notExpired api ua oracle st idx hlock hexp,
    hr, pageResponse, pageJson, jsonGet, pageRequest, htv]

theorem buildHeaders_stable (ua : String) (tok : Option String)
    (rh : Option Headers) :
    buildHeaders ua tok (some (buildHeaders ua tok rh)) = buildHeaders ua tok rh := by
  cases rh with
  | none => rfl
  | some h =>
      cases h with
      | nil => rfl
      | cons a t => rfl

/- ------------------------------------------------------------------ -/
/- Claim theorems.                                                     -/
/- ------------------------------------------------------------------ -/

/-- Claim C1.  The claim states that a non-success HTTP status surviving the
final retry attempt makes `execute` log, abort its page loop, and terminate,
returning partial results or a typed failure.  The code does not: the non-ok
branch of the loop (cspm.py lines 133-134) only logs, leaves `more` truthy,
and re-issues the request, so against a transport that always answers 503 the
page loop never terminates — for every fuel bound the run is still going. -/
theorem loop_http_error_out_of_fuel :
    ∀ (fuel idx : Nat) (body : Option Json) (rh : Option Headers)
      (results : List Json),
      (executeLoop "api.example.com" "agent" "GET" "v2/policy" false true
          oracle503 fuel stValid idx body rh results).result = .error .outOfFuel := by
  intro fuel
  induction fuel with
  | zero => intro idx body rh results; rfl
  | succ n ih =>
      intro idx body rh results
      rw [executeLoop_notOk_step "api.example.com" "agent" "GET" "v2/policy"
        false true oracle503 stValid idx n body rh results rfl rfl rfl]
      exact ih (idx + 1) body (some (buildHeaders "agent" stValid.token rh)) results

/-- Claim C2.  The claim wants an expired-but-present token at call start to
trigger exactly one extend call before the data request.  Instead, `execute`
holds `self.lock` (cspm.py line 86) while calling `is_token_expired`, which
re-acquires the same non-reentrant lock (line 158): the call self-deadlocks,
and no extend, login or data request is ever issued for this client state. -/
theorem execute_expired_token_deadlock :
    (execute "api.example.com" "agent" "user" "secret0" "GET" "v2/alerts"
        none none false false oracle503 7 stExpired).result = .error .deadlock := rfl

/-- Claim C8.  The claim wants the token check-and-renew to form one working
exclusive critical section.  The section as written self-deadlocks: with any
present token — here one that is not even expired — `is_token_expired`
re-acquires the lock `execute` already holds, so no caller can ever observe a
refreshed token. -/
theorem execute_valid_token_deadlock :
    (execute "api.example.com" "agent" "user" "secret0" "POST" "v2/policy"
        none none false true oracle503 9 stValid2).result = .error .deadlock := rfl

/-- Counterexample to claim C3 as stated: on the spec's own two-page scenario
the full `execute` call deadlocks in the token-acquisition phase and does not
return the concatenation of the pages. -/
theorem execute_two_pages_deadlock_cex :
    (execute "api.example.com" "agent" "user" "secret0" "POST" "v2/search"
        none none false true oracleTwoPages 5 stValid).result = .error .deadlock ∧
    (execute "api.example.com" "agent" "user" "secret0" "POST" "v2/search"
        none none false true oracleTwoPages 5 stValid).result ≠
      .ok (.items [Json.num 1, Json.num 2, Json.num 3]) := by
  refine ⟨rfl, ?_⟩
  intro h
  exact Except.noConfusion h

/-- Counterexample to claim C4 as stated: `execute` on a paginated response
without an `items` key deadlocks before reaching the page loop, and even the
page loop itself, entered directly with `force=true`, raises an uncaught
KeyError instead of the force-governed decode-failure handling the claim
describes. -/
theorem missing_items_keyerror_cex :
    (execute "api.example.com" "agent" "user" "secret0" "POST" "v2/things"
        none none true true oracleNoItems 6 stValid).result = .error .deadlock ∧
    (executeLoop "api.example.com" "agent" "POST" "v2/things" true true
        oracleNoItems 3 stValid 0 none none []).result = .error (.keyError "items") := by
  exact ⟨rfl, rfl⟩

/-- Counterexample to claim C7 as stated: a CSV response is never returned by
`execute`, which deadlocks in the token-acquisition phase before inspecting
any response. -/
theorem execute_csv_deadlock_cex :
    (execute "api.example.com" "agent" "user" "secret0" "GET" "v2/export"
        none none false false oracleCsv 3 stValid).result = .error .deadlock ∧
    (execute "api.example.com" "agent" "user" "secret0" "GET" "v2/export"
        none none false false oracleCsv 3 stValid).result ≠
      .ok (.text "id,name\n1,a") := by
  refine ⟨rfl, ?_⟩
  intro h
  exact Except.noConfusion h

/-- Counterexample to claim C9 as stated: on a pagination whose continuation
page has an empty body, `execute` does not return `None` — it deadlocks in
the token-acquisition phase before fetching any page. -/
theorem execute_continuation_empty_deadlock_cex :
    (execute "api.example.com" "agent" "user" "secret0" "POST" "v2/search"
        none none false true oraclePageThenEmpty 4 stValid2).result = .error .deadlock ∧
    (execute "api.example.com" "agent" "user" "secret0" "POST" "v2/search"
        none none false true oraclePageThenEmpty 4 stValid2).result ≠ .ok .none := by
  refine ⟨rfl, ?_⟩
  intro h
  exact Except.noConfusion h

/-- Claim C6.  A direct `login` call from a caller not holding the client
lock: on a successful POST it stores the token parsed from the response JSON
`token` field and sets the expiry to the frozen current time plus the
configured `token_limit` lifetime; on a non-success response it raises the
fatal `error_and_exit` failure carrying the HTTP status code and response
text, leaving the token store untouched. -/
theorem login_token_commit_or_exit (api ua identity secret : String)
    (oracle : Nat → Response) (st : ClientState) (idx : Nat)
    (hlock : st.lockHeld = false) :
    (∀ j raw, (oracle idx).ok = true → (oracle idx).content = .parses j raw →
        login api ua identity secret oracle st idx =
          ⟨.ok (), { st with token := tokenFromJson j,
                             token_expiry := some (st.now + st.token_limit) },
            idx + 1, [loginRequest api ua identity secret]⟩) ∧
    ((oracle idx).ok = false →
        login api ua identity secret oracle st idx =
          ⟨.error (.exit (oracle idx).status_code
              ("API (" ++ loginUrl api ++ ") responded with an error\n" ++
                (oracle idx).text)),
            st, idx + 1, [loginRequest api ua identity secret]⟩) := by
  constructor
  · intro j raw hok hc
    simp [login, hok, hc, hlock]
  · intro hok
    simp [login, hok]

/-- Witness for claim C6: a concrete successful login stores token T9 with
expiry 1000 + 590 = 1590, the spec lifetime. -/
theorem login_token_commit_witness :
    login "api.example.com" "agent" "user" "secret0" oracleToken stFresh 0 =
      ⟨.ok (), { token := some "T9", token_expiry := some 1590, token_limit := 590,
                 now := 1000, lockHeld := false }, 1,
        [loginRequest "api.example.com" "agent" "user" "secret0"]⟩ := by
  have h := (login_token_commit_or_exit "api.example.com" "agent" "user" "secret0"
      oracleToken stFresh 0 rfl).1 (.obj [("token", Json.str "T9")]) "tok" rfl rfl
  exact h.trans (by rfl)

/-- Claim C10.  With no recorded expiry the token counts as expired, and the
first `execute` call on a freshly constructed client issues the login POST as
its first and only network request — a login precedes any data request. -/
theorem fresh_client_logs_in_first :
    ∀ (st : ClientState), st.token = none → st.token_expiry = none →
      st.lockHeld = false →
      is_token_expired st = .ok true ∧
      ∀ (api ua identity secret action endpoint : String) (body : Option Json)
        (rh : Option Headers) (force paginated : Bool) (oracle : Nat → Response)
        (fuel : Nat),
        (execute api ua identity secret action endpoint body rh force paginated
            oracle fuel st).trace = [loginRequest api ua identity secret] := by
  intro st htok hexp hlock
  constructor
  · simp [is_token_expired, hlock, isExpiredRaw, hexp]
  · intro api ua identity secret action endpoint body rh force paginated oracle fuel
    have hfalsy : tokenFalsy { st with lockHeld := true } = true := by
      simp [tokenFalsy, htok]
    cases hok : (oracle 0).ok with
    | false => simp [execute, hlock, login, hfalsy, hok]
    | true => simp [execute, hlock, login, hfalsy, hok]

/-- Witness for claim C10 at a concrete fresh client. -/
theorem fresh_client_logs_in_first_witness :
    is_token_expired stFresh = .ok true ∧
    (execute "api.example.com" "agent" "user" "secret0" "GET" "v2/policies"
        none none false false oracleToken 2 stFresh).trace =
      [loginRequest "api.example.com" "agent" "user" "secret0"] := by
  have h := fresh_client_logs_in_first stFresh rfl rfl rfl
  exact ⟨h.1, h.2 "api.example.com" "agent" "user" "secret0" "GET" "v2/policies"
    none none false false oracleToken 2⟩

theorem retryLoop_cons_fail (attempts : Nat → AttemptOutcome) (off w : Nat)
    (tl : List Nat) (h : attemptOk (attempts off) = false) :
    retryLoop attempts off (w :: tl) =
      ⟨(retryLoop attempts (off + 1) tl).outcome,
       (retryLoop attempts (off + 1) tl).attemptsMade + 1,
       w :: (retryLoop attempts (off + 1) tl).sleeps⟩ := by
  cases ha : attempts off with
  | resp r =>
      have hok : r.ok = false := by simpa [attemptOk, ha] using h
      simp [retryLoop, ha, hok]
  | exn msg => simp [retryLoop, ha]

theorem retryLoop_spec (attempts : Nat → AttemptOutcome) :
    ∀ (ws : List Nat) (off : Nat),
      1 ≤ (retryLoop attempts off ws).attemptsMade ∧
      (retryLoop attempts off ws).attemptsMade ≤ ws.length + 1 ∧
      (retryLoop attempts off ws).sleeps =
        ws.take ((retryLoop attempts off ws).attemptsMade - 1) ∧
      ((∀ i, i < ws.length → attemptOk (attempts (off + i)) = false) →
          (retryLoop attempts off ws).attemptsMade = ws.length + 1 ∧
          (retryLoop attempts off ws).outcome =
            attemptYield (attempts (off + ws.length))) ∧
      (∀ i r, i ≤ ws.length → (∀ j, j < i → attemptOk (attempts (off + j)) = false) →
          attempts (off + i) = .resp r → r.ok = true →
          (retryLoop attempts off ws).outcome = .returned r ∧
          (retryLoop attempts off ws).attemptsMade = i + 1) := by
  intro ws
  induction ws with
  | nil =>
      intro off
      have hrun : retryLoop attempts off [] = ⟨attemptYield (attempts off), 1, []⟩ := by
        cases ha : attempts off <;> simp [retryLoop, ha, attemptYield]
      refine ⟨by rw [hrun], by rw [hrun]; exact Nat.le_refl 1, by rw [hrun]; rfl, ?_, ?_⟩
      · intro hall
        refine ⟨by rw [hrun]; rfl, ?_⟩
        rw [hrun, show off + List.length [] = off from rfl]
      · intro i r' hi hfail hat hok'
        have hi0 : i = 0 := Nat.le_zero.mp hi
        subst hi0
        rw [Nat.add_zero] at hat
        rw [hrun, hat]
        exact ⟨rfl, rfl⟩
  | cons w tl ih =>
      intro off
      obtain ⟨ih1, ih2, ih3, ih4, ih5⟩ := ih (off + 1)
      by_cases hfirst : attemptOk (attempts off) = true
      · obtain ⟨r, ha, hok⟩ : ∃ r, attempts off = .resp r ∧ r.ok = true := by
          cases ha : attempts off with
          | resp r => exact ⟨r, rfl, by simpa [attemptOk, ha] using hfirst⟩
          | exn m => simp [attemptOk, ha] at hfirst
        have hrun : retryLoop attempts off (w :: tl) = ⟨.returned r, 1, []⟩ := by
          simp [retryLoop, ha, hok]
        refine ⟨by rw [hrun], by rw [hrun]; show 1 ≤ tl.length + 1 + 1; omega,
          by rw [hrun]; rfl, ?_, ?_⟩
        · intro hall
          have h0 := hall 0 (by simp)
          rw [Nat.add_zero] at h0
          rw [h0] at hfirst
          cases hfirst
        · intro i r' hi hfail hat hok'
          cases i with
          | zero =>
              rw [Nat.add_zero, ha] at hat
              cases hat
              exact ⟨by rw [hrun], by rw [hrun]⟩
          | succ i' =>
              have h0 := hfail 0 (Nat.succ_pos i')
              rw [Nat.add_zero] at h0
              rw [h0] at hfirst
              cases hfirst
      · have hfail0 : attemptOk (attempts off) = false := by
          cases h : attemptOk (attempts off)
          · rfl
          · exact absurd h hfirst
        have hrun := retryLoop_cons_fail attempts off w tl hfail0
        obtain ⟨m, hm⟩ : ∃ m, (retryLoop attempts (off + 1) tl).attemptsMade = m + 1 :=
          ⟨(retryLoop attempts (off + 1) tl).attemptsMade - 1, by omega⟩
        refine ⟨?_, ?_, ?_, ?_, ?_⟩
        · rw [hrun]
          show 1 ≤ (retryLoop attempts (off + 1) tl).attemptsMade + 1
          omega
        · rw [hrun]
          show (retryLoop attempts (off + 1) tl).attemptsMade + 1 ≤ (w :: tl).length + 1
          have hlen : (w :: tl).length = tl.length + 1 := by simp
          omega
        · rw [hrun, ih3, hm]
          rfl
        · intro hall
          have hall' : ∀ i, i < tl.length →
              attemptOk (attempts (off + 1 + i)) = false := by
            intro i hi
            have h1 := hall (i + 1) (by simp only [List.length_cons]; omega)
            rwa [show off + (i + 1) = off + 1 + i from by omega] at h1
          obtain ⟨hm4, ho4⟩ := ih4 hall'
          constructor
          · rw [hrun]
            show (retryLoop attempts (off + 1) tl).attemptsMade + 1 = (w :: tl).length + 1
            have hlen : (w :: tl).length = tl.length + 1 := by simp
            omega
          · rw [hrun]
            show (retryLoop attempts (off + 1) tl).outcome =
              attemptYield (attempts (off + (w :: tl).length))
            rw [ho4, show off + (w :: tl).length = off + 1 + tl.length from by
              simp only [List.length_cons]; omega]
        · intro i r' hi hfail hat hok'
          cases i with
          | zero =>
              rw [Nat.add_zero] at hat
              rw [hat] at hfail0
              simp [attemptOk] at hfail0
              rw [hfail0] at hok'
              cases hok'
          | succ i' =>
              have hfail' : ∀ j, j < i' →
                  attemptOk (attempts (off + 1 + j)) = false := by
                intro j hj
                have h1 := hfail (j + 1) (Nat.succ_lt_succ hj)
                rwa [show off + (j + 1) = off + 1 + j from by omega] at h1
              have hat' : attempts (off + 1 + i') = .resp r' := by
                rwa [show off + 1 + i' = off + (i' + 1) from by omega]
              have hi' : i' ≤ tl.length := by
                have h1 : i' + 1 ≤ (w :: tl).length := hi
                simp only [List.length_cons] at h1
                omega
              obtain ⟨ho5, hm5⟩ := ih5 i' r' hi' hfail' hat' hok'
              constructor
              · rw [hrun]
                exact ho5
              · rw [hrun]
                show (retryLoop attempts (off + 1) tl).attemptsMade + 1 = i' + 1 + 1
                omega

/-- Claim C5.  The retry wrapper makes at most `len(retry_waits) + 1`
attempts, exactly that many when no attempt succeeds (and then yields what
the final attempt yields — response or propagated exception); its sleeps are
exactly the configured delays after each unsuccessful non-final attempt (so a
success after attempt `i` slept the first `i` delays and nothing after the
returning attempt); the first attempt that succeeds, exception-free failed
attempts before it included, is returned immediately. -/
theorem perform_request_with_retries_policy (retry_waits : List Nat)
    (attempts : Nat → AttemptOutcome) :
    1 ≤ (perform_request_with_retries retry_waits attempts).attemptsMade ∧
    (perform_request_with_retries retry_waits attempts).attemptsMade ≤
      retry_waits.length + 1 ∧
    (perform_request_with_retries retry_waits attempts).sleeps =
      retry_waits.take
        ((perform_request_with_retries retry_waits attempts).attemptsMade - 1) ∧
    ((∀ i, i < retry_waits.length → attemptOk (attempts i) = false) →
        (perform_request_with_retries retry_waits attempts).attemptsMade =
          retry_waits.length + 1 ∧
        (perform_request_with_retries retry_waits attempts).outcome =
          attemptYield (attempts retry_waits.length)) ∧
    (∀ i r, i ≤ retry_waits.length →
        (∀ j, j < i → attemptOk (attempts j) = false) →
        attempts i = .resp r → r.ok = true →
        (perform_request_with_retries retry_waits attempts).outcome =
          .returned r ∧
        (perform_request_with_retries retry_waits attempts).attemptsMade = i + 1) := by
  have h := retryLoop_spec attempts retry_waits 0
  simpa [perform_request_with_retries] using h

/-- Witness for claim C5: with delays `[1, 2]` and every attempt raising a
connection exception, exactly three attempts are made, both delays are slept,
and the final exception propagates. -/
theorem perform_request_with_retries_policy_witness :
    (perform_request_with_retries [1, 2] attemptsFail).attemptsMade = 3 ∧
    (perform_request_with_retries [1, 2] attemptsFail).outcome =
      .raised "connection refused" ∧
    (perform_request_with_retries [1, 2] attemptsFail).sleeps = [1, 2] := by
  obtain ⟨h1, h2, h3, h4, h5⟩ :=
    perform_request_with_retries_policy [1, 2] attemptsFail
  obtain ⟨hm, ho⟩ := h4 (fun i _ => rfl)
  refine ⟨hm, ?_, ?_⟩
  · rw [ho]; rfl
  · rw [h3, hm]; rfl

/-- Claim C4 (amended).  Once the page loop is reached, a paginated JSON
object response without an `items` key raises an uncaught KeyError — it is
never silently treated as an empty page or as the end of pagination — but the
failure is a key-lookup error distinct from the JSON-decode (ValueError)
class, and `force` does not govern it: the conclusion holds for both values
of `force`. -/
theorem executeLoop_missing_items_keyerror
    (api ua action endpoint : String) (force : Bool) (oracle : Nat → Response)
    (st : ClientState) (idx fuel : Nat) (body : Option Json)
    (rh : Option Headers) (results : List Json)
    (fields : List (String × Json)) (raw : String)
    (hlock : st.lockHeld = false) (hexp : isExpiredRaw st = false)
    (hok : (oracle idx).ok = true)
    (hct1 : (oracle idx).content_type ≠ some "application/x-gzip")
    (hct2 : (oracle idx).content_type ≠ some "text/csv")
    (hc : (oracle idx).content = .parses (.obj fields) raw)
    (hitems : jsonGet fields "items" = none) :
    (executeLoop api ua action endpoint force true oracle (fuel + 1)
        st idx body rh results).result = .error (.keyError "items") := by
  simp [executeLoop, loopTokenCheck_notExpired api ua oracle st idx hlock hexp,
    hok, hc, hct1, hct2, hitems]

/-- Witness for the amended claim C4 at a concrete no-items page, with
`force = true`. -/
theorem executeLoop_missing_items_keyerror_witness :
    (executeLoop "api.example.com" "agent" "POST" "v2/things" true true
        oracleNoItems 1 stValid2 0 none none []).result =
      .error (.keyError "items") := by
  exact executeLoop_missing_items_keyerror "api.example.com" "agent" "POST"
    "v2/things" true oracleNoItems stValid2 0 0 none none []
    [("status", Json.str "ok")] "noitems" rfl rfl rfl
    (by simp [oracleNoItems, noItemsResponse])
    (by simp [oracleNoItems, noItemsResponse]) rfl rfl

/-- Claim C7 (amended).  Once the page loop is reached, a successful response
dispatches exactly as claimed: an empty body yields the absent result and no
error; a gzip content type yields the raw bytes unchanged; a CSV content type
yields the decoded text unchanged; any other body is JSON-decoded and, on
decode failure, `force = true` returns the results accumulated so far while
`force = false` is the fatal `error_and_exit` failure. -/
theorem executeLoop_response_dispatch
    (api ua action endpoint : String) (force paginated : Bool)
    (oracle : Nat → Response) (st : ClientState) (idx fuel : Nat)
    (body : Option Json) (rh : Option Headers) (results : List Json)
    (hlock : st.lockHeld = false) (hexp : isExpiredRaw st = false)
    (hok : (oracle idx).ok = true) :
    ((oracle idx).content = .empty →
        (executeLoop api ua action endpoint force paginated oracle (fuel + 1)
            st idx body rh results).result = .ok .none) ∧
    (∀ raw, (oracle idx).content_type = some "application/x-gzip" →
        ((oracle idx).content = .unparsable raw ∨
          ∃ j, (oracle idx).content = .parses j raw) →
        (executeLoop api ua action endpoint force paginated oracle (fuel + 1)
            st idx body rh results).result = .ok (.bytes raw)) ∧
    (∀ raw, (oracle idx).content_type = some "text/csv" →
        ((oracle idx).content = .unparsable raw ∨
          ∃ j, (oracle idx).content = .parses j raw) →
        (executeLoop api ua action endpoint force paginated oracle (fuel + 1)
            st idx body rh results).result = .ok (.text raw)) ∧
    (∀ raw, (oracle idx).content_type ≠ some "application/x-gzip" →
        (oracle idx).content_type ≠ some "text/csv" →
        (oracle idx).content = .unparsable raw →
        (force = true →
          (executeLoop api ua action endpoint force paginated oracle (fuel + 1)
              st idx body rh results).result = .ok (.items results)) ∧
        (force = false →
          (executeLoop api ua action endpoint force paginated oracle (fuel + 1)
              st idx body rh results).result =
            .error (.exit (oracle idx).status_code "Error parsing response"))) := by
  refine ⟨?_, ?_, ?_, ?_⟩
  · intro hc
    rw [executeLoop_empty_step api ua action endpoint force paginated oracle
      st idx fuel body rh results hlock hexp hok hc]
  · intro raw hct hc
    rw [executeLoop_gzip_step api ua action endpoint force paginated oracle
      st idx fuel body rh results raw hlock hexp hok hct hc]
  · intro raw hct hc
    rw [executeLoop_csv_step api ua action endpoint force paginated oracle
      st idx fuel body rh results raw hlock hexp hok hct hc]
  · intro raw hct1 hct2 hc
    constructor
    · intro hf
      rw [executeLoop_unparsable_step api ua action endpoint force paginated
        oracle st idx fuel body rh results raw hlock hexp hok hct1 hct2 hc, hf]
      rfl
    · intro hf
      rw [executeLoop_unparsable_step api ua action endpoint force paginated
        oracle st idx fuel body rh results raw hlock hexp hok hct1 hct2 hc, hf]
      rfl

/-- Witness for the amended claim C7 at a concrete CSV export response. -/
theorem executeLoop_response_dispatch_witness :
    (executeLoop "api.example.com" "agent" "GET" "v2/export" false false
        oracleCsv 1 stValid2 0 none none []).result =
      .ok (.text "id,name\n1,a") := by
  have h := executeLoop_response_dispatch "api.example.com" "agent" "GET"
    "v2/export" false false oracleCsv stValid2 0 0 none none [] rfl rfl rfl
  exact h.2.2.1 "id,name\n1,a" rfl (Or.inl rfl)

/-- Claim C9 (amended).  Once the page loop is reached, a continuation page
fetched after items were already accumulated and answered with an empty body
makes the loop return the absent result, and a gzip or CSV continuation page
returns only that page's bytes or text: in all three cases the accumulated
items are discarded. -/
theorem executeLoop_continuation_discards_accumulated
    (api ua action endpoint : String) (force : Bool) (oracle : Nat → Response)
    (st : ClientState) (idx fuel : Nat) (body : Option Json)
    (rh : Option Headers) (results xs : List Json) (tok : Json)
    (hlock : st.lockHeld = false) (hexp : isExpiredRaw st = false)
    (h0 : oracle idx = pageResponse (xs, some tok)) (htok : jTruthy tok = true)
    (hok1 : (oracle (idx + 1)).ok = true) :
    ((oracle (idx + 1)).content = .empty →
        (executeLoop api ua action endpoint force true oracle (fuel + 1 + 1)
            st idx body rh results).result = .ok .none) ∧
    (∀ raw, (oracle (idx + 1)).content_type = some "application/x-gzip" →
        ((oracle (idx + 1)).content = .unparsable raw ∨
          ∃ j, (oracle (idx + 1)).content = .parses j raw) →
        (executeLoop api ua action endpoint force true oracle (fuel + 1 + 1)
            st idx body rh results).result = .ok (.bytes raw)) ∧
    (∀ raw, (oracle (idx + 1)).content_type = some "text/csv" →
        ((oracle (idx + 1)).content = .unparsable raw ∨
          ∃ j, (oracle (idx + 1)).content = .parses j raw) →
        (executeLoop api ua action endpoint force true oracle (fuel + 1 + 1)
            st idx body rh results).result = .ok (.text raw)) := by
  refine ⟨?_, ?_, ?_⟩
  · intro hc
    rw [executeLoop_page_next_step api ua action endpoint force oracle st idx
      (fuel + 1) body rh results xs tok hlock hexp h0 htok]
    rw [executeLoop_empty_step api ua action endpoint force true oracle st
      (idx + 1) fuel (some (.obj [("pageToken", tok)]))
      (some (buildHeaders ua st.token rh)) (results ++ xs) hlock hexp hok1 hc]
  · intro raw hct hc
    rw [executeLoop_page_next_step api ua action endpoint force oracle st idx
      (fuel + 1) body rh results xs tok hlock hexp h0 htok]
    rw [executeLoop_gzip_step api ua action endpoint force true oracle st
      (idx + 1) fuel (some (.obj [("pageToken", tok)]))
      (some (buildHeaders ua st.token rh)) (results ++ xs) raw hlock hexp hok1 hct hc]
  · intro raw hct hc
    rw [executeLoop_page_next_step api ua action endpoint force oracle st idx
      (fuel + 1) body rh results xs tok hlock hexp h0 htok]
    rw [executeLoop_csv_step api ua action endpoint force true oracle st
      (idx + 1) fuel (some (.obj [("pageToken", tok)]))
      (some (buildHeaders ua st.token rh)) (results ++ xs) raw hlock hexp hok1 hct hc]

/-- Witness for the amended claim C9: a first page accumulates `[1, 2]`, the
continuation response has an empty body, and the loop returns the absent
result, discarding the accumulated items. -/
theorem executeLoop_continuation_discards_accumulated_witness :
    (executeLoop "api.example.com" "agent" "POST" "v2/search" false true
        oraclePageThenEmpty 2 stValid2 0 none none []).result = .ok .none := by
  have h := executeLoop_continuation_discards_accumulated "api.example.com"
    "agent" "POST" "v2/search" false oraclePageThenEmpty stValid2 0 0 none none
    [] [Json.num 1, Json.num 2] (Json.str "A") rfl rfl rfl rfl rfl
  exact h.1 rfl

/-- Claim C3 (amended).  Once the page loop is entered with an unexpired
token, a well-formed page sequence — every page a JSON object with an `items`
array, every non-final page with a truthy `nextPageToken`, the final page
with that field absent or falsy — makes the loop return the concatenation of
all pages' `items` in page order with nothing added, removed or reordered;
the trace shows that every continuation request reuses the method and
endpoint and replaces the body with the `pageToken` object, and the loop
stops exactly after the first page whose continuation token is absent or
falsy. -/
theorem executeLoop_concats_pages (api ua action endpoint : String)
    (force : Bool) (oracle : Nat → Response) (st : ClientState)
    (hlock : st.lockHeld = false) (hexp : isExpiredRaw st = false) :
    ∀ (pages : List (List Json × Option Json)) (idx fuel : Nat)
      (body : Option Json) (rh : Option Headers) (results : List Json),
      pages ≠ [] → pages.length ≤ fuel →
      (∀ i (h : i < pages.length),
        oracle (idx + i) = pageResponse (pages.get ⟨i, h⟩)) →
      (∀ i (h : i < pages.length), i + 1 < pages.length →
        ∃ v, (pages.get ⟨i, h⟩).2 = some v ∧ jTruthy v = true) →
      (∀ hne v, (pages.getLast hne).2 = some v → jTruthy v = false) →
      executeLoop api ua action endpoint force true oracle fuel
          st idx body rh results =
        ⟨.ok (.items (results ++ (pages.map Prod.fst).flatten)), st,
          idx + pages.length,
          pagesTrace action (dataUrl api endpoint)
            (buildHeaders ua st.token rh) pages body⟩ := by
  intro pages
  induction pages with
  | nil =>
      intro idx fuel body rh results hne
      exact absurd rfl hne
  | cons p rest ih =>
      intro idx fuel body rh results hne hfuel horacle hchain hlast
      obtain ⟨f, rfl⟩ : ∃ f, fuel = f + 1 := by
        cases fuel with
        | zero => exfalso; simp at hfuel
        | succ f => exact ⟨f, rfl⟩
      obtain ⟨xs, pn⟩ := p
      have hr0 : oracle idx = pageResponse (xs, pn) := by
        have h := horacle 0 (by simp)
        simpa using h
      cases rest with
      | nil =>
          cases pn with
          | none =>
              rw [executeLoop_page_none_step api ua action endpoint force
                oracle st idx f body rh results xs hlock hexp hr0]
              simp [pagesTrace, pageRequest]
          | some v =>
              have hfv : jTruthy v = false := hlast (by simp) v rfl
              rw [executeLoop_page_falsy_step api ua action endpoint force
                oracle st idx f body rh results xs v hlock hexp hr0 hfv]
              simp [pagesTrace, pageRequest, hfv]
      | cons q rest2 =>
          obtain ⟨v, hp2a, htv⟩ := hchain 0 (by simp) (by simp)
          have hp2 : pn = some v := hp2a
          subst hp2
          rw [executeLoop_page_next_step api ua action endpoint force
            oracle st idx f body rh results xs v hlock hexp hr0 htv]
          have hfuel2 : (q :: rest2).length ≤ f := by
            simp only [List.length_cons] at hfuel ⊢
            omega
          have horacle2 : ∀ i (h : i < (q :: rest2).length),
              oracle (idx + 1 + i) = pageResponse ((q :: rest2).get ⟨i, h⟩) := by
            intro i h
            have h2 : i + 1 < ((xs, some v) :: q :: rest2).length := by
              simp only [List.length_cons] at h ⊢
              omega
            have h3 := horacle (i + 1) h2
            rw [show idx + (i + 1) = idx + 1 + i from by omega] at h3
            exact h3
          have hchain2 : ∀ i (h : i < (q :: rest2).length),
              i + 1 < (q :: rest2).length →
              ∃ w, ((q :: rest2).get ⟨i, h⟩).2 = some w ∧ jTruthy w = true := by
            intro i h hlt
            have h2 : i + 1 < ((xs, some v) :: q :: rest2).length := by
              simp only [List.length_cons] at h ⊢
              omega
            have h3 : i + 1 + 1 < ((xs, some v) :: q :: rest2).length := by
              simp only [List.length_cons] at hlt ⊢
              omega
            exact hchain (i + 1) h2 h3
          have hlast2 : ∀ hne2 w, ((q :: rest2).getLast hne2).2 = some w →
              jTruthy w = false := by
            intro hne2 w hw
            exact hlast (by simp) w hw
          have hrec := ih (idx + 1) f (some (.obj [("pageToken", v)]))
            (some (buildHeaders ua st.token rh)) (results ++ xs)
            (by simp) hfuel2 horacle2 hchain2 hlast2
          rw [hrec, buildHeaders_stable]
          rw [M.mk.injEq]
          refine ⟨?_, rfl, ?_, ?_⟩
          · simp [List.append_assoc]
          · simp only [List.length_cons]
            omega
          · simp [pagesTrace, htv, pageRequest]

/-- Witness for the amended claim C3: the spec scenario.  Page 1 is `[1, 2]`
with continuation token `A`, page 2 is `[3]` with an empty token; the loop
returns `[1, 2, 3]` and its second request carries body
`pageToken = A`. -/
theorem executeLoop_concats_pages_witness :
    executeLoop "api.example.com" "agent" "POST" "v2/search" false true
        oracleTwoPages 2 stValid 0 none none [] =
      ⟨.ok (.items [Json.num 1, Json.num 2, Json.num 3]), stValid, 2,
        [{ action := "POST", url := dataUrl "api.example.com" "v2/search",
           headers := buildHeaders "agent" stValid.token none, body := none },
         { action := "POST", url := dataUrl "api.example.com" "v2/search",
           headers := buildHeaders "agent" stValid.token none,
           body := some (.obj [("pageToken", Json.str "A")]) }]⟩ := by
  have h := executeLoop_concats_pages "api.example.com" "agent" "POST"
    "v2/search" false oracleTwoPages stValid rfl rfl
    [([Json.num 1, Json.num 2], some (Json.str "A")),
     ([Json.num 3], some (Json.str ""))]
    0 2 none none [] (by simp) (by decide)
    (by
      intro i h
      simp only [List.length_cons, List.length_nil] at h
      interval_cases i <;> rfl)
    (by
      intro i h hlt
      simp only [List.length_cons, List.length_nil] at h hlt
      interval_cases i
      · exact ⟨Json.str "A", rfl, rfl⟩
      · omega)
    (by
      intro hne v hv
      have hv2 : some (Json.str "") = some v := hv
      injection hv2 with hv3
      cases hv3
      rfl)
  exact h.trans (by rfl)

end PCApi
